import Mathlib

set_option maxRecDepth 8192
set_option linter.unusedVariables false

/-!
Verification development for the `agentic-era-hack` repository.

The repository has two source files:

* `src/streamlit_ui/app.py` — a dashboard whose ingestion core is the
  `Event_Extractor` class: it reads a parsed JSON document and projects it
  into per-event records and summary rows.
* `src/app/agent.py` — a sequential multi-agent pipeline declaration plus
  string-formatting stage stubs, among them the bounded retry loop
  `resolve_conflicts`.

The Python code is shallowly embedded below: JSON documents become an
inductive `Json` type, the dynamically-typed dictionary/list/string
operations the code performs become total Lean functions returning
`Except PyErr _` where Python would raise, and the retry loop becomes a
structurally recursive function over the remaining permitted iterations.
-/

namespace AgenticEra

/-! ## A model of parsed JSON documents (the values `json.load` produces)

Python's `json.load` yields nests of `dict`, `list`, `str`, numbers, booleans
and `None`.  Objects are kept as association lists in document order; the
documents handled here have unique keys (as any value produced by `json.load`
effectively does, later duplicates overriding earlier ones), and key lookup
takes the first match. -/

inductive Json where
  | null
  | bool (b : Bool)
  | num (n : Int)
  | str (s : String)
  | arr (elems : List Json)
  | obj (fields : List (String × Json))

/-- The Python exceptions the embedded code can raise.  The source defines no
exception classes of its own (in particular no `MalformedLogError`); these are
the built-in exceptions its operations can produce. -/
inductive PyErr where
  | valueError
  | attributeError
  | typeError
  | keyError

/-- Character-list prefix test (`==` on characters). -/
def charsPrefix : List Char → List Char → Bool
  | [], _ => true
  | _ :: _, [] => false
  | a :: as, b :: bs => a == b && charsPrefix as bs

/-- Character-list infix test: the pattern occurs somewhere in the list. -/
def charsInfix (pat : List Char) : List Char → Bool
  | [] => pat.isEmpty
  | c :: rest => charsPrefix pat (c :: rest) || charsInfix pat rest

/-- Substring containment, modelling Python's `needle in haystack` on strings. -/
def strContainsSub (haystack needle : String) : Bool :=
  charsInfix needle.toList haystack.toList

/-- Models the Python method call `container.get(key, default)`: defined on
dicts, `AttributeError` on any other receiver (lists, strings, numbers, `None`
have no `get` method). -/
def getJson (container : Json) (key : String) (dflt : Json) : Except PyErr Json :=
  match container with
  | Json.obj fs => Except.ok ((fs.lookup key).getD dflt)
  | _ => Except.error PyErr.attributeError

/-- Models the Python subscript `container[key]` for a string key: value lookup
on a dict (`KeyError` when absent), `TypeError` on any other receiver. -/
def pySubscript (container : Json) (key : String) : Except PyErr Json :=
  match container with
  | Json.obj fs =>
    match fs.lookup key with
    | some v => Except.ok v
    | none => Except.error PyErr.keyError
  | _ => Except.error PyErr.typeError

/-- Models the Python membership test `key in container` for a string-literal
key: key presence on a dict, substring containment on a string, elementwise
`==` on a list (a string compares equal only to an equal string), and
`TypeError` otherwise. -/
def pyContains (key : String) : Json → Except PyErr Bool
  | Json.obj fs => Except.ok (fs.lookup key).isSome
  | Json.str s => Except.ok (strContainsSub s key)
  | Json.arr xs =>
    Except.ok (xs.any fun x => match x with | Json.str s => s == key | _ => false)
  | _ => Except.error PyErr.typeError

/-- Models Python iteration `for x in v`: lists yield their elements, dicts
yield their keys in insertion order, strings yield one-character strings;
other values raise `TypeError`. -/
def pyIter : Json → Except PyErr (List Json)
  | Json.arr xs => Except.ok xs
  | Json.obj fs => Except.ok (fs.map fun p => Json.str p.1)
  | Json.str s => Except.ok (s.toList.map fun c => Json.str (String.mk [c]))
  | _ => Except.error PyErr.typeError

/-- Models Python `len(v)`: element count of a list, key count of a dict,
character count of a string, `TypeError` otherwise. -/
def pyLen : Json → Except PyErr Nat
  | Json.arr xs => Except.ok xs.length
  | Json.obj fs => Except.ok fs.length
  | Json.str s => Except.ok s.length
  | _ => Except.error PyErr.typeError

/-- Models `''.join(parts)`: string concatenation when every element is a
string, `TypeError` otherwise. -/
def joinStrs : List Json → Except PyErr String
  | [] => Except.ok ""
  | Json.str s :: rest => do
    let r ← joinStrs rest
    Except.ok (s ++ r)
  | _ :: _ => Except.error PyErr.typeError

/-- Models Python truthiness of a parsed JSON value (used by the
`elif json_data:` test in `Event_Extractor.__init__`): empty containers,
empty strings, zero, `False` and `None` are falsy. -/
def pyTruthy : Json → Bool
  | Json.null => false
  | Json.bool b => b
  | Json.num n => n != 0
  | Json.str s => !s.isEmpty
  | Json.arr xs => !xs.isEmpty
  | Json.obj fs => !fs.isEmpty

/-! ## The `Event_Extractor` data model (`src/streamlit_ui/app.py`) -/

/-- One entry of `event_info['grounding_chunks']`: the `web_info.get(...)`
values (each `None`, i.e. `Json.null`, when absent). -/
structure GroundingChunk where
  domain : Json
  title : Json
  uri : Json

/-- One entry of `event_info['grounding_supports']`. -/
structure GroundingSupport where
  grounding_chunk_indices : Json
  segment : Json

/-- The `event_info` dictionary built per event by `extract_all_events`. -/
structure EventInfo where
  id : Json
  timestamp : Json
  author : Json
  invocation_id : Json
  role : Json
  content_parts : List Json
  grounding_chunks : List GroundingChunk
  grounding_supports : List GroundingSupport
  search_queries : Json

/-- One row of the `get_event_summary` table (the pandas `DataFrame` is
modelled as the ordered list of its rows). -/
structure SummaryRecord where
  ID : Json
  Author : Json
  Role : Json
  Timestamp : Json
  Content_Length : Nat
  Grounding_Chunks_Count : Nat
  Grounding_Supports_Count : Nat
  Search_Queries_Count : Nat

/-- The `for part in parts` loop of `extract_all_events`: keeps `part['text']`
for exactly the parts passing `'text' in part`. -/
def collectTextParts : List Json → Except PyErr (List Json)
  | [] => Except.ok []
  | part :: rest => do
    let b ← pyContains "text" part
    if b then do
      let t ← pySubscript part "text"
      let others ← collectTextParts rest
      Except.ok (t :: others)
    else
      collectTextParts rest

/-- The `for chunk in grounding_chunks` loop: keeps the `web` projection of
exactly the chunks passing `'web' in chunk`. -/
def collectWebChunks : List Json → Except PyErr (List GroundingChunk)
  | [] => Except.ok []
  | chunk :: rest => do
    let b ← pyContains "web" chunk
    if b then do
      let web ← pySubscript chunk "web"
      let domain ← getJson web "domain" Json.null
      let title ← getJson web "title" Json.null
      let uri ← getJson web "uri" Json.null
      let others ← collectWebChunks rest
      Except.ok ({ domain := domain, title := title, uri := uri } :: others)
    else
      collectWebChunks rest

/-- The `for support in grounding_supports` loop. -/
def collectSupports : List Json → Except PyErr (List GroundingSupport)
  | [] => Except.ok []
  | support :: rest => do
    let idx ← getJson support "groundingChunkIndices" (Json.arr [])
    let seg ← getJson support "segment" (Json.obj [])
    let others ← collectSupports rest
    Except.ok ({ grounding_chunk_indices := idx, segment := seg } :: others)

/-- The content-handling part of the per-event block of `extract_all_events`:
the `event.get('content', {}).get('role')` lookup of the `event_info` literal
followed by the content-parts loop (`content = event.get('content', {});
parts = content.get('parts', [])`).  Returns the role and the collected
part texts. -/
def content_subextraction (event : Json) : Except PyErr (Json × List Json) := do
  let c0 ← getJson event "content" (Json.obj [])
  let role ← getJson c0 "role" Json.null
  let content ← getJson event "content" (Json.obj [])
  let partsJ ← getJson content "parts" (Json.arr [])
  let parts ← pyIter partsJ
  let cps ← collectTextParts parts
  Except.ok (role, cps)

/-- The grounding-metadata part of the per-event block:
`grounding_metadata = event.get('groundingMetadata', {})` followed by the
chunk loop, the support loop and the
`grounding_metadata.get('webSearchQueries', [])` assignment. -/
def grounding_subextraction (event : Json) :
    Except PyErr (List GroundingChunk × List GroundingSupport × Json) := do
  let gm ← getJson event "groundingMetadata" (Json.obj [])
  let gcJ ← getJson gm "groundingChunks" (Json.arr [])
  let gcs ← pyIter gcJ
  let chunks ← collectWebChunks gcs
  let gsJ ← getJson gm "groundingSupports" (Json.arr [])
  let gss ← pyIter gsJ
  let supports ← collectSupports gss
  let queries ← getJson gm "webSearchQueries" (Json.arr [])
  Except.ok (chunks, supports, queries)

/-- The body of the `for event in self.data.get('events', [])` loop: builds
one `event_info` record, in the source's evaluation order (the plain
`event.get` lookups of the dict literal, then the content parts, then the
grounding metadata). -/
def extract_event (event : Json) : Except PyErr EventInfo := do
  let i ← getJson event "id" Json.null
  let ts ← getJson event "timestamp" Json.null
  let au ← getJson event "author" Json.null
  let inv ← getJson event "invocationId" Json.null
  let rc ← content_subextraction event
  let g ← grounding_subextraction event
  Except.ok { id := i, timestamp := ts, author := au, invocation_id := inv,
              role := rc.1, content_parts := rc.2,
              grounding_chunks := g.1, grounding_supports := g.2.1,
              search_queries := g.2.2 }

/-- Sequencing of the event loop: the events processed in order, the first
raised exception aborting the whole call. -/
def extractEvents : List Json → Except PyErr (List EventInfo)
  | [] => Except.ok []
  | e :: rest => do
    let info ← extract_event e
    let others ← extractEvents rest
    Except.ok (info :: others)

/-- `Event_Extractor.extract_all_events`: iterates
`self.data.get('events', [])` and builds one record per event. -/
def extract_all_events (data : Json) : Except PyErr (List EventInfo) := do
  let evs ← getJson data "events" (Json.arr [])
  let evList ← pyIter evs
  extractEvents evList

/-- `Event_Extractor.__init__` on the `json_data` path (the dashboard always
constructs the extractor with `json_data=...`; the `json_file_path` branch
performs file I/O and is outside this embedding): stores the document when it
is truthy, otherwise raises `ValueError`. -/
def Event_Extractor_init (json_data : Json) : Except PyErr Json :=
  if pyTruthy json_data then Except.ok json_data else Except.error PyErr.valueError

/-- The parse operation of the spec's `EventLogAdapter`: `Event_Extractor`
construction followed by `extract_all_events`. -/
def Event_Extractor_parse (json_data : Json) : Except PyErr (List EventInfo) := do
  let data ← Event_Extractor_init json_data
  extract_all_events data

/-- The row built per event by `get_event_summary`. -/
def summarize_event (e : EventInfo) : Except PyErr SummaryRecord := do
  let joined ← joinStrs e.content_parts
  let qCount ← pyLen e.search_queries
  Except.ok { ID := e.id, Author := e.author, Role := e.role, Timestamp := e.timestamp,
              Content_Length := joined.length,
              Grounding_Chunks_Count := e.grounding_chunks.length,
              Grounding_Supports_Count := e.grounding_supports.length,
              Search_Queries_Count := qCount }

/-- The summary loop of `get_event_summary`, one row per event in order. -/
def summarizeEvents : List EventInfo → Except PyErr (List SummaryRecord)
  | [] => Except.ok []
  | e :: rest => do
    let r ← summarize_event e
    let rs ← summarizeEvents rest
    Except.ok (r :: rs)

/-- `Event_Extractor.get_event_summary`: `self.extract_all_events()` followed
by the row-building loop (`pd.DataFrame` preserves the row order of
`summary_data`). -/
def get_event_summary (data : Json) : Except PyErr (List SummaryRecord) := do
  let evs ← extract_all_events data
  summarizeEvents evs

/-- Two consecutive runs of the summary computation on one document (the
round-trip scenario of the spec's determinism property). -/
def run_summarize_twice (data : Json) :
    Except PyErr (List SummaryRecord) × Except PyErr (List SummaryRecord) :=
  (get_event_summary data, get_event_summary data)

/-! ## The bounded retry stage (`resolve_conflicts`, `src/app/agent.py`)

The artifacts flowing through `resolve_conflicts` are either plain Python
strings or `LlmResponse` objects.  `LlmResponse` is an external SDK type
(`google.adk.models`); it is modelled abstractly as a tagged wrapper around
the text the source builds it from. -/

inductive PyVal where
  | str (s : String)
  | llmResponse (s : String)

/-- The triple-quoted template of `collect_role_thoughts` (the f-string does
not interpolate its `role_prompts` argument anywhere, so the produced text is
this constant). -/
def collected_role_thoughts_text : String :=
  "\n    Collected Role Thoughts:\n    - Technical Expert: Scalability, reliability, modern tech stack. [Ref: Tech sources]\n    - Domain Specialist: Domain constraints and opportunities. [Ref: Domain sources]\n    - UX Consultant: Usability and accessibility. [Ref: UX research]\n    - Regulatory Advisor: Compliance obligations. [Ref: Regulatory sources]\n    - Strategy Analyst: Long-term strategic impact. [Ref: Strategy sources]\n    "

/-- `collect_role_thoughts`: ignores its argument and returns an
`LlmResponse` built from the fixed template. -/
def collect_role_thoughts (role_prompts : PyVal) : PyVal :=
  PyVal.llmResponse collected_role_thoughts_text

/-- Models the test `"No conflicts" in current_thoughts` of
`resolve_conflicts`.  On a plain string this is Python substring containment.
On an `LlmResponse` object Python's `in` does not perform a substring search
of the wrapped text (it iterates the SDK object's fields, never matching a
plain string), so the marker is never found there; the model uses substring
containment of the carried text, which gives the same answer for every
artifact this program produces because the `collect_role_thoughts` template
does not contain the marker (proved below). -/
def noConflictsIn : PyVal → Bool
  | PyVal.str s => strContainsSub s "No conflicts"
  | PyVal.llmResponse s => strContainsSub s "No conflicts"

/-- The `while iteration < max_iterations` loop of `resolve_conflicts`.
`fuel` is the number of loop entries still permitted
(`max_iterations - iteration`), and `iteration` mirrors the Python counter,
so the loop body runs exactly while `iteration < max_iterations`.  Returns
the value the Python function returns together with the number of
`collect_role_thoughts` invocations performed (the instrumentation needed to
state the claims about StageFunction calls). -/
def resolve_conflicts_loop : Nat → Nat → PyVal → PyVal × Nat
  | 0, iteration, _ =>
    (PyVal.llmResponse
      ("Conflict Check: Conflicts resolved after " ++ toString iteration ++ " iterations."), 0)
  | fuel + 1, iteration, current =>
    if noConflictsIn current then
      (PyVal.str ("Conflict Check: No conflicts after " ++ toString iteration ++ " iterations."), 0)
    else
      let r := resolve_conflicts_loop fuel (iteration + 1) (collect_role_thoughts current)
      (r.1, r.2 + 1)

/-- `resolve_conflicts(role_thoughts, max_iterations)` (the Python default for
`max_iterations` is `3`): starts the loop at `iteration = 0` on the given
artifact. -/
def resolve_conflicts (role_thoughts : PyVal) (max_iterations : Nat) : PyVal × Nat :=
  resolve_conflicts_loop max_iterations 0 role_thoughts

/-! ## The sequential pipeline (`ultimate_role_based_solver`, `src/app/agent.py`) -/

/-- A pipeline stage: a name and a stage function, as in spec §4.2 (the
repository's stages are the ten named sub-agents of
`ultimate_role_based_solver`). -/
structure PipelineStage where
  name : String
  func : String → String

/-- Modelled from the spec: the execution semantics of `SequentialAgent`
(the `google.adk` SDK class instantiated at `src/app/agent.py:281`), which is
not part of src/.  Spec §4.4: the stages are executed front-to-back, each
stage consuming the immediately preceding stage's artifact (stage 0 consumes
the initial ProblemStatement), and every stage's output is recorded under the
stage's name. -/
def runPipeline : List PipelineStage → String → List (String × String)
  | [], _ => []
  | s :: rest, art =>
    let out := s.func art
    (s.name, out) :: runPipeline rest out

/-- The `sub_agents` declaration order of `ultimate_role_based_solver`
(`src/app/agent.py:287-298`). -/
def polymind_sub_agent_names : List String :=
  ["data_collector_agent", "role_identifier_agent", "prompt_generator_agent",
   "role_thought_collector_agent", "fact_checker_agent", "conflict_resolution_agent",
   "simulation_agent", "scoring_agent", "final_solution_agent", "visualization_agent"]

/-- The repository's pipeline: the ten declared sub-agents in order, each
stage's behaviour given by an assignment `fs` of stage functions to stage
names (the sub-agents delegate to a hosted model, an external collaborator,
so their functions are parameters of the embedding). -/
def polymindStages (fs : String → String → String) : List PipelineStage :=
  polymind_sub_agent_names.map fun n => { name := n, func := fs n }

/-- Default stage used with `List.getD`. -/
def dStage : PipelineStage := { name := "", func := fun s => s }

/-! ## Concrete documents for the end-to-end scenario -/

/-- Event A of the spec's end-to-end scenario: `content.parts =
[{"text":"hello"}]`, no grounding metadata. -/
def eventAFields : List (String × Json) :=
  [("id", Json.str "a1"), ("timestamp", Json.num 100), ("author", Json.str "user"),
   ("invocationId", Json.str "inv1"),
   ("content", Json.obj [("role", Json.str "user"),
     ("parts", Json.arr [Json.obj [("text", Json.str "hello")]])])]

/-- Event A as a JSON value. -/
def eventA : Json := Json.obj eventAFields

/-- Event B of the scenario: `content.parts = [{"text":"hi there"}]`, one
grounding chunk with domain `"example.com"`, and `webSearchQueries =
["query1"]`. -/
def eventB : Json := Json.obj
  [("id", Json.str "b1"), ("timestamp", Json.num 200), ("author", Json.str "data_collector_agent"),
   ("invocationId", Json.str "inv1"),
   ("content", Json.obj [("role", Json.str "model"),
     ("parts", Json.arr [Json.obj [("text", Json.str "hi there")]])]),
   ("groundingMetadata", Json.obj
     [("groundingChunks", Json.arr [Json.obj [("web", Json.obj
         [("domain", Json.str "example.com"), ("title", Json.str "Example"),
          ("uri", Json.str "https://example.com")])]]),
      ("webSearchQueries", Json.arr [Json.str "query1"])])]

/-- The two-event log of the scenario. -/
def twoEventLog : Json := Json.obj [("events", Json.arr [eventA, eventB])]

/-- The record `extract_all_events` builds for event A. -/
def infoA : EventInfo :=
  { id := Json.str "a1", timestamp := Json.num 100, author := Json.str "user",
    invocation_id := Json.str "inv1", role := Json.str "user",
    content_parts := [Json.str "hello"], grounding_chunks := [],
    grounding_supports := [], search_queries := Json.arr [] }

/-- The record `extract_all_events` builds for event B. -/
def infoB : EventInfo :=
  { id := Json.str "b1", timestamp := Json.num 200, author := Json.str "data_collector_agent",
    invocation_id := Json.str "inv1", role := Json.str "model",
    content_parts := [Json.str "hi there"],
    grounding_chunks := [{ domain := Json.str "example.com", title := Json.str "Example",
                           uri := Json.str "https://example.com" }],
    grounding_supports := [], search_queries := Json.arr [Json.str "query1"] }

/-- The summary row for event A: Content_Length 5, no sources, no queries. -/
def recA : SummaryRecord :=
  { ID := Json.str "a1", Author := Json.str "user", Role := Json.str "user",
    Timestamp := Json.num 100, Content_Length := 5, Grounding_Chunks_Count := 0,
    Grounding_Supports_Count := 0, Search_Queries_Count := 0 }

/-- The summary row for event B: Content_Length 8, one source, one query. -/
def recB : SummaryRecord :=
  { ID := Json.str "b1", Author := Json.str "data_collector_agent", Role := Json.str "model",
    Timestamp := Json.num 200, Content_Length := 8, Grounding_Chunks_Count := 1,
    Grounding_Supports_Count := 0, Search_Queries_Count := 1 }

/-- Default `EventInfo` used with `List.getD`. -/
def dEvent : EventInfo :=
  { id := Json.null, timestamp := Json.null, author := Json.null,
    invocation_id := Json.null, role := Json.null, content_parts := [],
    grounding_chunks := [], grounding_supports := [], search_queries := Json.arr [] }

/-- Default `SummaryRecord` used with `List.getD`. -/
def dRec : SummaryRecord :=
  { ID := Json.null, Author := Json.null, Role := Json.null, Timestamp := Json.null,
    Content_Length := 0, Grounding_Chunks_Count := 0, Grounding_Supports_Count := 0,
    Search_Queries_Count := 0 }

/-- The per-chunk projection a JSON-object chunk's `web` value is mapped to
(used to state which chunks `collectWebChunks` keeps). -/
def webChunkOfJson : Json → Option GroundingChunk
  | Json.obj ws => some { domain := (ws.lookup "domain").getD Json.null,
                          title := (ws.lookup "title").getD Json.null,
                          uri := (ws.lookup "uri").getD Json.null }
  | _ => none

/-! ## Helper lemmas -/

/-- Reduction of a successful bind in the `Except` monad. -/
@[simp] theorem except_ok_bind {ε α β : Type} (a : α) (f : α → Except ε β) :
    (Except.ok a >>= f : Except ε β) = f a := rfl

/-- Reduction of a failing bind in the `Except` monad. -/
@[simp] theorem except_error_bind {ε α β : Type} (e : ε) (f : α → Except ε β) :
    (Except.error e >>= f : Except ε β) = (Except.error e : Except ε β) := rfl

/-- When an event object carries no `groundingMetadata` key, the grounding
sub-extraction succeeds with all three collections empty. -/
theorem grounding_subextraction_none {fields : List (String × Json)}
    (h : fields.lookup "groundingMetadata" = none) :
    grounding_subextraction (Json.obj fields) = Except.ok ([], [], Json.arr []) := by
  unfold grounding_subextraction
  rw [show getJson (Json.obj fields) "groundingMetadata" (Json.obj []) =
        Except.ok (Json.obj []) by simp [getJson, h]]
  rfl

/-- `collect_role_thoughts` always produces an artifact in which the
`"No conflicts"` termination marker is not found. -/
theorem noConflictsIn_collect (a : PyVal) :
    noConflictsIn (collect_role_thoughts a) = false :=
  (by decide : noConflictsIn (PyVal.llmResponse collected_role_thoughts_text) = false)

/-- Once the conflict marker is absent, the retry loop runs its remaining
`fuel` iterations and ends in the exhausted branch, whose message reports the
final value of the iteration counter; the second component counts exactly one
`collect_role_thoughts` invocation per iteration. -/
theorem resolve_loop_exhausts (fuel : Nat) :
    ∀ (iteration : Nat) (a : PyVal), noConflictsIn a = false →
      resolve_conflicts_loop fuel iteration a =
        (PyVal.llmResponse ("Conflict Check: Conflicts resolved after " ++
          toString (iteration + fuel) ++ " iterations."), fuel) := by
  induction fuel with
  | zero => intro it a h; simp [resolve_conflicts_loop]
  | succ m ih =>
    intro it a h
    have e : it + (m + 1) = it + 1 + m := by omega
    rw [e]
    simp only [resolve_conflicts_loop, h, Bool.false_eq_true, if_false]
    rw [ih (it + 1) (collect_role_thoughts a) (noConflictsIn_collect a)]

/-- The retry loop performs at most `fuel` StageFunction invocations. -/
theorem resolve_loop_call_bound (fuel : Nat) :
    ∀ (iteration : Nat) (a : PyVal), (resolve_conflicts_loop fuel iteration a).2 ≤ fuel := by
  induction fuel with
  | zero => intro it a; simp [resolve_conflicts_loop]
  | succ m ih =>
    intro it a
    simp only [resolve_conflicts_loop]
    cases hb : noConflictsIn a with
    | true => simp
    | false =>
      simp only [Bool.false_eq_true, if_false]
      exact Nat.succ_le_succ (ih (it + 1) (collect_role_thoughts a))

/-- The summary loop succeeds with one row per event, in input order, each row
given by `summarize_event` on the corresponding event. -/
theorem summarizeEvents_ok_spec (evs : List EventInfo) :
    ∀ recs : List SummaryRecord, summarizeEvents evs = Except.ok recs →
      recs.length = evs.length ∧
        ∀ i, i < evs.length →
          summarize_event (evs.getD i dEvent) = Except.ok (recs.getD i dRec) := by
  induction evs with
  | nil =>
    intro recs h
    simp only [summarizeEvents, Except.ok.injEq] at h
    subst h
    exact ⟨rfl, fun i hi => absurd hi (Nat.not_lt_zero i)⟩
  | cons e rest ih =>
    intro recs h
    simp only [summarizeEvents] at h
    cases he : summarize_event e with
    | error err => rw [he, except_error_bind] at h; exact Except.noConfusion h
    | ok r =>
      rw [he, except_ok_bind] at h
      cases hr : summarizeEvents rest with
      | error err => rw [hr, except_error_bind] at h; exact Except.noConfusion h
      | ok rs =>
        rw [hr, except_ok_bind] at h
        injection h with h2
        subst h2
        obtain ⟨hlen, hidx⟩ := ih rs hr
        refine ⟨by simp [hlen], ?_⟩
        intro i hi
        cases i with
        | zero => simpa [List.getD] using he
        | succ j =>
          simp only [List.getD_cons_succ]
          exact hidx j (Nat.lt_of_succ_lt_succ hi)

/-- A JSON-object part without a `text` key is skipped by the part loop. -/
theorem collectTextParts_skip (fs : List (String × Json)) (rest : List Json)
    (h : fs.lookup "text" = none) :
    collectTextParts (Json.obj fs :: rest) = collectTextParts rest := by
  simp [collectTextParts, pyContains, h]

/-- A JSON-object chunk without a `web` key is skipped by the chunk loop. -/
theorem collectWebChunks_skip (fs : List (String × Json)) (rest : List Json)
    (h : fs.lookup "web" = none) :
    collectWebChunks (Json.obj fs :: rest) = collectWebChunks rest := by
  simp [collectWebChunks, pyContains, h]

/-- On a list of JSON-object parts the part loop never fails and keeps exactly
the `text` values of the parts that have one, in order. -/
theorem collectTextParts_objs (ps : List (List (String × Json))) :
    collectTextParts (ps.map Json.obj) =
      Except.ok (ps.filterMap fun fs => fs.lookup "text") := by
  induction ps with
  | nil => rfl
  | cons fs ps ih =>
    cases h : fs.lookup "text" with
    | none => simp [collectTextParts, pyContains, pySubscript, h, ih, List.filterMap_cons]
    | some v => simp [collectTextParts, pyContains, pySubscript, h, ih, List.filterMap_cons]

/-- On a list of JSON-object chunks whose `web` values (when present) are
JSON objects, the chunk loop never fails and keeps exactly the projected
`web` records of the chunks that have a `web` key, in order. -/
theorem collectWebChunks_objs (cs : List (List (String × Json)))
    (hweb : ∀ fs ∈ cs, ∀ w, fs.lookup "web" = some w → ∃ ws, w = Json.obj ws) :
    collectWebChunks (cs.map Json.obj) =
      Except.ok (cs.filterMap fun fs => (fs.lookup "web").bind webChunkOfJson) := by
  induction cs with
  | nil => rfl
  | cons fs cs ih =>
    have ihr := ih fun g hg w hw => hweb g (List.mem_cons_of_mem fs hg) w hw
    cases h : fs.lookup "web" with
    | none => simp [collectWebChunks, pyContains, pySubscript, h, ihr, List.filterMap_cons]
    | some w =>
      obtain ⟨ws, rfl⟩ := hweb fs (List.mem_cons_self fs cs) w h
      simp [collectWebChunks, pyContains, pySubscript, getJson, webChunkOfJson, h, ihr,
        List.filterMap_cons]

/-- `runPipeline` produces one record per stage. -/
theorem runPipeline_length (stages : List PipelineStage) :
    ∀ init : String, (runPipeline stages init).length = stages.length := by
  induction stages with
  | nil => intro init; rfl
  | cons s rest ih => intro init; simp [runPipeline, ih]

/-- `runPipeline` records the stage names in declaration order. -/
theorem runPipeline_names (stages : List PipelineStage) :
    ∀ init : String, (runPipeline stages init).map Prod.fst = stages.map PipelineStage.name := by
  induction stages with
  | nil => intro init; rfl
  | cons s rest ih => intro init; simp [runPipeline, ih]

/-- Elementwise behaviour of `runPipeline`: the i-th record carries the i-th
stage's name and its function applied to the (i-1)-th output (the initial
artifact for stage 0). -/
theorem runPipeline_getD (stages : List PipelineStage) :
    ∀ (init : String) (i : Nat), i < stages.length →
      (runPipeline stages init).getD i ("", "") =
        ((stages.getD i dStage).name,
         (stages.getD i dStage).func
           (if i = 0 then init else ((runPipeline stages init).getD (i - 1) ("", "")).2)) := by
  induction stages with
  | nil => intro init i h; exact absurd h (Nat.not_lt_zero i)
  | cons s rest ih =>
    intro init i h
    cases i with
    | zero => simp [runPipeline, List.getD]
    | succ j =>
      have hj : j < rest.length := Nat.lt_of_succ_lt_succ h
      cases j with
      | zero => simpa [runPipeline, List.getD] using ih (s.func init) 0 hj
      | succ k =>
        have hk := ih (s.func init) (k + 1) hj
        simp only [runPipeline, List.getD_cons_succ, Nat.succ_sub_one] at hk ⊢
        exact hk

/-! ## Claim theorems -/

/-- C1, counterexample: on the document `{"foo": 1}`, whose top-level object
has no `events` key, the parse operation returns the empty event list — a
result, not an error — refuting the claim that it signals `MalformedLogError`
(the program defines no such exception at all). -/
theorem parse_no_events_key_cx :
    Event_Extractor_parse (Json.obj [("foo", Json.num 1)]) = Except.ok [] := rfl

/-- C1, amended: for every document whose top-level value is a nonempty JSON
object with no `events` key, the parse operation returns the empty event list
rather than signaling any error; the empty object is rejected earlier, by the
constructor, with `ValueError` (no `MalformedLogError` exists in the code). -/
theorem parse_no_events_key_amended :
    (∀ fields : List (String × Json), fields ≠ [] → fields.lookup "events" = none →
       Event_Extractor_parse (Json.obj fields) = Except.ok []) ∧
    Event_Extractor_parse (Json.obj []) = Except.error PyErr.valueError := by
  refine ⟨?_, rfl⟩
  intro fields hne h
  have ht : pyTruthy (Json.obj fields) = true := by
    cases fields with
    | nil => exact absurd rfl hne
    | cons p l => simp [pyTruthy]
  simp [Event_Extractor_parse, Event_Extractor_init, ht, extract_all_events, getJson, h,
    pyIter, extractEvents]

/-- C1, witness for the amended theorem at the concrete document
`{"foo": "bar"}`. -/
theorem parse_no_events_key_amended_w :
    Event_Extractor_parse (Json.obj [("foo", Json.str "bar")]) = Except.ok [] :=
  parse_no_events_key_amended.1 [("foo", Json.str "bar")] (by simp) rfl

/-- C2, counterexample: on the artifact `"No conflicts"`, whose termination
predicate is satisfied at the very first check, `resolve_conflicts` returns
the converged message reporting 0 iterations and performs 0 StageFunction
invocations — refuting the claim that the StageFunction is applied first and
that the result carries iteration count 1. -/
theorem retry_converged_count_cx :
    resolve_conflicts (PyVal.str "No conflicts") 3 =
      (PyVal.str "Conflict Check: No conflicts after 0 iterations.", 0) := rfl

/-- C2, amended: `resolve_conflicts` evaluates the termination predicate on
the current artifact before applying its StageFunction; whenever the
predicate is satisfied at entry and the iteration ceiling is positive, it
returns the Converged result with iteration count 0 and zero
`collect_role_thoughts` invocations. -/
theorem retry_predicate_checked_first (a : PyVal) (n : Nat)
    (h : noConflictsIn a = true) (hn : 0 < n) :
    resolve_conflicts a n =
      (PyVal.str "Conflict Check: No conflicts after 0 iterations.", 0) := by
  cases n with
  | zero => exact absurd hn (Nat.lt_irrefl 0)
  | succ m =>
    simp only [resolve_conflicts, resolve_conflicts_loop, h, if_true]
    rfl

/-- C2, witness for the amended theorem at a concrete artifact containing the
marker. -/
theorem retry_predicate_checked_first_w :
    resolve_conflicts (PyVal.str "No conflicts detected") 2 =
      (PyVal.str "Conflict Check: No conflicts after 0 iterations.", 0) :=
  retry_predicate_checked_first (PyVal.str "No conflicts detected") 2 (by decide) (by decide)

/-- C3: with `max_iterations = 0` the loop body never runs:
`resolve_conflicts` returns the exhausted fall-through value with zero
`collect_role_thoughts` invocations, for every input artifact. -/
theorem retry_zero_ceiling_short_circuits (a : PyVal) :
    resolve_conflicts a 0 =
      (PyVal.llmResponse "Conflict Check: Conflicts resolved after 0 iterations.", 0) := rfl

/-- C4, counterexample: on the artifact `"the roles disagree"`, on which the
termination predicate never holds, `resolve_conflicts` with ceiling 2 ends in
the exhausted branch but returns the fixed message
`"Conflict Check: Conflicts resolved after 2 iterations."` — a message that
contains neither the last artifact nor any `"not converged"` annotation,
refuting the claim that the last artifact is returned with an explicit
not-converged marker. -/
theorem retry_exhausted_cx :
    resolve_conflicts (PyVal.str "the roles disagree") 2 =
      (PyVal.llmResponse "Conflict Check: Conflicts resolved after 2 iterations.", 2) ∧
    strContainsSub "Conflict Check: Conflicts resolved after 2 iterations."
      "not converged" = false ∧
    strContainsSub "Conflict Check: Conflicts resolved after 2 iterations."
      "the roles disagree" = false :=
  ⟨rfl, by decide, by decide⟩

/-- C4, amended: when the termination predicate fails on the input artifact
it fails on every subsequent artifact (the StageFunction's template never
contains the marker), so `resolve_conflicts` exhausts its ceiling after
exactly `max_iterations` StageFunction invocations and returns — as an
ordinary value, a soft outcome that raises nothing and so cannot abort a
pipeline — the fixed `LlmResponse` message
`"Conflict Check: Conflicts resolved after N iterations."`, which carries
neither the last artifact nor a "not converged" annotation. -/
theorem retry_exhausted_fixed_message (a : PyVal) (n : Nat)
    (h : noConflictsIn a = false) :
    resolve_conflicts a n =
      (PyVal.llmResponse ("Conflict Check: Conflicts resolved after " ++
        toString n ++ " iterations."), n) := by
  have hx := resolve_loop_exhausts n 0 a h
  simpa [resolve_conflicts] using hx

/-- C4, witness for the amended theorem at a concrete conflicting artifact. -/
theorem retry_exhausted_fixed_message_w :
    resolve_conflicts (PyVal.str "wild disagreement") 3 =
      (PyVal.llmResponse "Conflict Check: Conflicts resolved after 3 iterations.", 3) :=
  retry_exhausted_fixed_message (PyVal.str "wild disagreement") 3 (by decide)

/-- C5: an event object with no `groundingMetadata` key is extracted without
error whenever its content sub-extraction succeeds, and its grounding-chunk,
grounding-support and search-query collections are all empty. -/
theorem missing_grounding_metadata_tolerated
    (fields : List (String × Json)) (role : Json) (cps : List Json)
    (hgm : fields.lookup "groundingMetadata" = none)
    (hc : content_subextraction (Json.obj fields) = Except.ok (role, cps)) :
    extract_event (Json.obj fields) = Except.ok
      { id := (fields.lookup "id").getD Json.null,
        timestamp := (fields.lookup "timestamp").getD Json.null,
        author := (fields.lookup "author").getD Json.null,
        invocation_id := (fields.lookup "invocationId").getD Json.null,
        role := role, content_parts := cps,
        grounding_chunks := [], grounding_supports := [],
        search_queries := Json.arr [] } := by
  unfold extract_event
  simp only [getJson, except_ok_bind, hc, grounding_subextraction_none hgm]

/-- C5, witness at the scenario's event A (which has content but no grounding
metadata). -/
theorem missing_grounding_metadata_tolerated_w :
    extract_event eventA = Except.ok infoA :=
  missing_grounding_metadata_tolerated eventAFields (Json.str "user") [Json.str "hello"] rfl rfl

/-- C6: the summary computation produces one record per parsed event, in
input order, each record computed by `summarize_event` (content length of the
joined text parts, grounding-chunk count, search-query count); on the
two-event scenario log it yields exactly the records
(Content_Length 5, 0 chunks, 0 queries) and
(Content_Length 8, 1 chunk, 1 query). -/
theorem summary_one_record_per_event :
    get_event_summary twoEventLog = Except.ok [recA, recB] ∧
    (∀ (evs : List EventInfo) (recs : List SummaryRecord),
       summarizeEvents evs = Except.ok recs →
       recs.length = evs.length ∧
         ∀ i, i < evs.length →
           summarize_event (evs.getD i dEvent) = Except.ok (recs.getD i dRec)) ∧
    (∀ (data : Json) (evs : List EventInfo), extract_all_events data = Except.ok evs →
       get_event_summary data = summarizeEvents evs) :=
  ⟨rfl, summarizeEvents_ok_spec, fun data evs h => by
    simp only [get_event_summary]
    rw [h, except_ok_bind]⟩

/-- C6, witness: the general conjuncts applied at the concrete two-event
log and its extracted records. -/
theorem summary_one_record_per_event_w :
    get_event_summary twoEventLog = summarizeEvents [infoA, infoB] ∧
    summarize_event infoA = Except.ok recA := by
  refine ⟨summary_one_record_per_event.2.2 twoEventLog [infoA, infoB] rfl, ?_⟩
  exact (summary_one_record_per_event.2.1 [infoA, infoB] [recA, recB] rfl).2 0 (by decide)

/-- C7: running the summary computation twice on the same document yields
identical results — the embedded adapter is a pure function of its input
document, with no hidden state. -/
theorem summary_roundtrip_deterministic (data : Json) :
    (run_summarize_twice data).1 = (run_summarize_twice data).2 := rfl

/-- C8: for every pipeline and every index below the stage count, `execute`
produces exactly one record per stage, the i-th record carrying the i-th
declared stage's name and its function applied to the (i-1)-th stage's output
(the initial ProblemStatement for stage 0); for the repository's pipeline the
record sequence follows the ten declared sub-agent names in order. -/
theorem pipeline_sequential_threading :
    (∀ (stages : List PipelineStage) (init : String) (i : Nat), i < stages.length →
       (runPipeline stages init).length = stages.length ∧
       (runPipeline stages init).getD i ("", "") =
         ((stages.getD i dStage).name,
          (stages.getD i dStage).func
            (if i = 0 then init else ((runPipeline stages init).getD (i - 1) ("", "")).2))) ∧
    (∀ (fs : String → String → String) (init : String),
       (runPipeline (polymindStages fs) init).map Prod.fst = polymind_sub_agent_names) :=
  ⟨fun stages init i h => ⟨runPipeline_length stages init, runPipeline_getD stages init i h⟩,
   fun fs init => (runPipeline_names (polymindStages fs) init).trans rfl⟩

/-- C8, witness: the elementwise conjunct applied at the repository pipeline
with identity stage functions, index 1. -/
theorem pipeline_sequential_threading_w :
    (runPipeline (polymindStages fun _ s => s) "p").getD 1 ("", "") =
      ("role_identifier_agent", "p") :=
  ((pipeline_sequential_threading.1 (polymindStages fun _ s => s) "p" 1 (by decide)).2).trans rfl

/-- C9: the part loop keeps exactly the `text` values of the object parts
that have a `text` key and the chunk loop keeps exactly the `web` projections
of the object chunks that have a `web` key; object parts and chunks lacking
those keys are skipped without error and contribute nothing to the collected
lists (hence nothing to Content_Length or Grounding_Chunks_Count). -/
theorem parts_chunks_key_filtering :
    (∀ (fs : List (String × Json)) (rest : List Json), fs.lookup "text" = none →
       collectTextParts (Json.obj fs :: rest) = collectTextParts rest) ∧
    (∀ (fs : List (String × Json)) (rest : List Json), fs.lookup "web" = none →
       collectWebChunks (Json.obj fs :: rest) = collectWebChunks rest) ∧
    (∀ ps : List (List (String × Json)),
       collectTextParts (ps.map Json.obj) =
         Except.ok (ps.filterMap fun fs => fs.lookup "text")) ∧
    (∀ cs : List (List (String × Json)),
       (∀ fs ∈ cs, ∀ w, fs.lookup "web" = some w → ∃ ws, w = Json.obj ws) →
       collectWebChunks (cs.map Json.obj) =
         Except.ok (cs.filterMap fun fs => (fs.lookup "web").bind webChunkOfJson)) :=
  ⟨collectTextParts_skip, collectWebChunks_skip, collectTextParts_objs, collectWebChunks_objs⟩

/-- C9, witness: a keyless object part is skipped with an `ok` result, and a
chunk with an object-valued `web` key is kept with its projection. -/
theorem parts_chunks_key_filtering_w :
    collectTextParts [Json.obj [("kind", Json.null)]] = Except.ok [] ∧
    collectWebChunks [Json.obj [("web", Json.obj [("domain", Json.str "example.com")])]] =
      Except.ok [{ domain := Json.str "example.com", title := Json.null, uri := Json.null }] := by
  constructor
  · exact (parts_chunks_key_filtering.1 [("kind", Json.null)] [] rfl).trans rfl
  · refine (parts_chunks_key_filtering.2.2.2
      [[("web", Json.obj [("domain", Json.str "example.com")])]] ?_).trans rfl
    intro fs hfs w hw
    have hfs2 : fs = [("web", Json.obj [("domain", Json.str "example.com")])] := by
      simpa using hfs
    subst hfs2
    refine ⟨[("domain", Json.str "example.com")], ?_⟩
    simpa [List.lookup] using hw.symm

/-- C10: `resolve_conflicts` is a total function (the loop is structural
recursion on the remaining permitted iterations) and performs at most
`max_iterations` invocations of its StageFunction `collect_role_thoughts`,
for every artifact and every nonnegative ceiling. -/
theorem retry_terminates_within_bound (a : PyVal) (n : Nat) :
    (resolve_conflicts a n).2 ≤ n :=
  resolve_loop_call_bound n 0 a

end AgenticEra
